import Mathlib

/-!
Shallow embedding of `keep-alive.py`, a system-tray utility that simulates a
key press while three conditions hold (work hours, AC power, wired ethernet).

Platform queries (clock, battery, network enumeration, key synthesis, tray
icon) are modelled as explicit inputs: the current hour is a `Nat`, the
battery query is an `Except Unit (Option Battery)` (error / no battery /
battery), network enumeration is an `Except Unit (List NetIface)`, and the
side effects of one loop tick are returned as a count of key presses and
the list of lines printed.
-/

namespace KeepAlive

/-! ### Configuration constants (lines 23-47 of the source) -/

def UPDATE_PERIOD : Nat := 30

def WORK_HOURS_START : Nat := 8

def WORK_HOURS_END : Nat := 17

def KEEP_ALIVE_KEY : String := "scrolllock"

def SKIP_INTERFACES : List String :=
  ["lo", "wifi", "wlan", "wireless", "bluetooth", "local area connection"]

def ETHERNET_PATTERNS : List String := ["ethernet", "eth", "en"]

/-! ### Substring containment (Python's `pattern in name` on strings) -/

/-- `charsInfix pat l` decides whether `pat` occurs contiguously in `l`. -/
def charsInfix (pat : List Char) : List Char → Bool
  | [] => pat.isEmpty
  | c :: rest => List.isPrefixOf pat (c :: rest) || charsInfix pat rest

/-- Python's `pat in s` for strings: substring containment. -/
def strIn (pat s : String) : Bool := charsInfix pat.data s.data

/-- Python's `s.lower()`; the names and patterns involved are ASCII, where
`Char.toLower` agrees with Python. -/
def lowerStr (s : String) : String := String.mk (s.data.map Char.toLower)

/-- Python's `s.startswith(pat)`. -/
def strStarts (s pat : String) : Bool := List.isPrefixOf pat.data s.data

/-! ### SystemConditions (lines 64-141) -/

/-- `SystemConditions.is_work_hours`, line 67-71: the current local hour is
passed in explicitly in place of `datetime.now().hour`. -/
def is_work_hours (current_hour : Nat) : Bool :=
  decide (WORK_HOURS_START ≤ current_hour ∧ current_hour < WORK_HOURS_END)

/-- Result of `psutil.sensors_battery()` when a battery object is returned;
only the `power_plugged` field is consulted by `is_on_ac_power`. -/
structure Battery where
  power_plugged : Bool
deriving DecidableEq, Repr

/-- `SystemConditions.is_on_ac_power`, lines 73-82.  The battery query is an
input: `.error` models `psutil.sensors_battery()` raising, `.ok none` models
it returning `None`, `.ok (some b)` a battery object. -/
def is_on_ac_power (query : Except Unit (Option Battery)) : Bool :=
  match query with
  | Except.error _ => true      -- except Exception: return True
  | Except.ok none => true      -- if battery is None: return True
  | Except.ok (some battery) => battery.power_plugged

/-- One entry of `psutil.net_if_addrs()[name]`: an address family tag
(2 = AF_INET) and the address string. -/
structure NetAddr where
  family : Nat
  address : String
deriving DecidableEq, Repr

/-- One network interface as seen by the source: its name (key of
`net_if_stats()`), its `isup` flag, and its address list
(`net_if_addrs()[name]`, the empty list when the name is missing there,
which line 131 treats identically). -/
structure NetIface where
  name : String
  isup : Bool
  addrs : List NetAddr
deriving DecidableEq, Repr

/-- `SystemConditions._should_skip_interface`, lines 105-109. -/
def should_skip_interface (interface_name : String) : Bool :=
  SKIP_INTERFACES.any (fun pattern => strIn pattern (lowerStr interface_name))

/-- `SystemConditions._is_ethernet_interface`, lines 111-118. -/
def is_ethernet_interface (interface_name : String) : Bool :=
  ETHERNET_PATTERNS.any (fun pattern =>
    strStarts (lowerStr interface_name) pattern || strIn pattern (lowerStr interface_name))

/-- The per-address test of lines 134-140: IPv4, truthy (non-empty), not
loopback, not APIPA link-local, not unspecified. -/
def valid_ipv4_addr (addr : NetAddr) : Bool :=
  addr.family == 2 &&
  addr.address != "" &&
  !strStarts addr.address "127." &&
  !strStarts addr.address "169.254." &&
  addr.address != "0.0.0.0"

/-- `SystemConditions._interface_has_valid_connection`, lines 120-141. -/
def interface_has_valid_connection (iface : NetIface) : Bool :=
  iface.isup && iface.addrs.any valid_ipv4_addr

/-- `SystemConditions.has_wired_ethernet_connection`, lines 84-103.  The
enumeration result is an input: `.error` models `psutil` raising.  The scan
returns true on the first interface that is not skipped, looks like
ethernet, and has a valid connection — exactly `List.any` of that
conjunction. -/
def has_wired_ethernet_connection (query : Except Unit (List NetIface)) : Bool :=
  match query with
  | Except.error _ => false     -- except Exception: return False
  | Except.ok interfaces =>
      interfaces.any (fun iface =>
        !should_skip_interface iface.name &&
        (is_ethernet_interface iface.name && interface_has_valid_connection iface))

/-! ### KeepAliveApp (lines 182-306)

The three condition checks read the live platform each time they are called;
for one tick they are fixed, so the controller logic is embedded as
functions of a `ConditionSnapshot` of the three boolean answers. -/

/-- The three condition values as fixed for one evaluation. -/
structure ConditionSnapshot where
  work_hours : Bool
  ac_power : Bool
  ethernet : Bool
deriving DecidableEq, Repr

/-- `KeepAliveApp.all_conditions_met`, lines 190-194. -/
def all_conditions_met (c : ConditionSnapshot) : Bool :=
  c.work_hours && c.ac_power && c.ethernet

/-- `KeepAliveApp.get_failed_conditions`, lines 196-205: appends one reason
string per unmet condition, in source order. -/
def get_failed_conditions (c : ConditionSnapshot) : List String :=
  let reasons : List String := []
  let reasons := if !c.work_hours then reasons ++ ["Outside Work Hours"] else reasons
  let reasons := if !c.ac_power then reasons ++ ["On Battery"] else reasons
  let reasons := if !c.ethernet then reasons ++ ["No Ethernet"] else reasons
  reasons

/-- The line printed on a key press, line 230.  `Python str.title()` on the
single lowercase word `scrolllock` capitalizes its first letter.  `t` stands
for `datetime.now().strftime('%H:%M:%S')`. -/
def key_press_log_line (t : String) : String :=
  "Keep-alive: " ++ KEEP_ALIVE_KEY.capitalize ++ " key pressed at " ++ t

/-- `KeepAliveApp._log_skip_reason`, lines 237-246: the line printed for the
first unmet condition, `none` when the `if/elif` chain finds all conditions
met (possible only if a condition changed between checks; never with a
fixed snapshot that is not all-true). -/
def log_skip_reason (c : ConditionSnapshot) (t : String) : Option String :=
  if !c.work_hours then
    some ("Keep-alive: Outside work hours (" ++ toString WORK_HOURS_START ++
      ":00-" ++ toString WORK_HOURS_END ++ ":00), skipping at " ++ t)
  else if !c.ac_power then
    some ("Keep-alive: Running on battery power, skipping at " ++ t)
  else if !c.ethernet then
    some ("Keep-alive: No wired ethernet connection, skipping at " ++ t)
  else
    none

/-- One tick of `KeepAliveApp.keep_alive_loop`, lines 228-235 (the body
between the `running` re-check and the sleep, excluding the icon refresh):
returns how many times `simulate_key_press` was called and the list of
lines printed. -/
def keep_alive_tick (c : ConditionSnapshot) (t : String) : Nat × List String :=
  if all_conditions_met c then
    (1, [key_press_log_line t])
  else
    (0, (log_skip_reason c t).toList)

/-- Line printed by `start_keep_alive`, line 254. -/
def start_log_line : String := "Keep-alive started"

/-- Line printed by `stop_keep_alive`, line 263. -/
def stop_log_line : String := "Keep-alive stopped"

/-- The mutable pieces of the tray icon the controller writes in
`update_icon` (lines 273-275); the menu is presentation glue and omitted. -/
structure IconView where
  status : String
  title : String
deriving DecidableEq, Repr

/-- Controller state: `self.running`, the number of background loop threads
currently scheduled (`self.thread`: a fresh thread is started by `start`,
and the loop exits once `running` is false, which `stop` waits for), and
the tray icon, `none` before `run()` creates it. -/
structure AppState where
  running : Bool
  loops : Nat
  icon : Option IconView
deriving DecidableEq, Repr

/-- `KeepAliveApp.__init__`, lines 185-188. -/
def initState : AppState := { running := false, loops := 0, icon := none }

/-- `KeepAliveApp._get_icon_status`, lines 277-285. -/
def get_icon_status (running : Bool) (c : ConditionSnapshot) : String × String :=
  if !running then
    ("stopped", "Stopped")
  else if all_conditions_met c then
    ("active", "Running (Active)")
  else
    ("paused", "Paused (" ++ String.intercalate ", " (get_failed_conditions c) ++ ")")

/-- `KeepAliveApp.update_icon`, lines 266-275: returns immediately when no
tray icon exists, otherwise rewrites the icon from the current status. -/
def update_icon (c : ConditionSnapshot) (s : AppState) : AppState :=
  match s.icon with
  | none => s
  | some _ =>
      let st := get_icon_status s.running c
      { s with icon := some { status := st.1, title := "Keep Alive - " ++ st.2 } }

/-- `KeepAliveApp.start_keep_alive`, lines 248-255: guarded on
`not self.running`; sets `running`, starts one new loop thread, refreshes
the icon. -/
def start_keep_alive (c : ConditionSnapshot) (s : AppState) : AppState :=
  if !s.running then
    update_icon c { s with running := true, loops := s.loops + 1 }
  else
    s

/-- `KeepAliveApp.stop_keep_alive`, lines 257-264: guarded on
`self.running`; clears `running`, which makes the loop thread exit (the
`join` waits for it), then refreshes the icon. -/
def stop_keep_alive (c : ConditionSnapshot) (s : AppState) : AppState :=
  if s.running then
    update_icon c { s with running := false, loops := 0 }
  else
    s

/-- The §3 invariant: `running` iff exactly one background loop is
scheduled, and never two. -/
def loopInvariant (s : AppState) : Prop :=
  (s.running = true ↔ s.loops = 1) ∧ s.loops ≤ 1

instance (s : AppState) : Decidable (loopInvariant s) := by
  unfold loopInvariant; infer_instance

/-! ### Helper lemmas -/

theorem update_icon_running (c : ConditionSnapshot) (s : AppState) :
    (update_icon c s).running = s.running := by
  unfold update_icon; cases s.icon <;> rfl

theorem update_icon_loops (c : ConditionSnapshot) (s : AppState) :
    (update_icon c s).loops = s.loops := by
  unfold update_icon; cases s.icon <;> rfl

theorem start_of_running (c : ConditionSnapshot) (s : AppState)
    (h : s.running = true) : start_keep_alive c s = s := by
  simp [start_keep_alive, h]

/-! ### Claims -/

/-- C4: for every local hour `h`, `is_work_hours` is true iff `8 ≤ h < 17`;
the start boundary (8) is inclusive, the end boundary (17) exclusive. -/
theorem work_hours_window (h : Nat) :
    (is_work_hours h = true ↔ 8 ≤ h ∧ h < 17) ∧
    is_work_hours 8 = true ∧ is_work_hours 17 = false := by
  refine ⟨?_, by decide, by decide⟩
  simp [is_work_hours, WORK_HOURS_START, WORK_HOURS_END]

/-- C4 witness: `h = 9` lies in the window and `is_work_hours 9` holds. -/
theorem work_hours_window_witness : is_work_hours 9 = true :=
  (work_hours_window 9).1.mpr (by decide)

/-- C1: `has_wired_ethernet_connection` on a successful enumeration is true
iff some interface has no skip pattern in its lowercased name, has an
ethernet pattern starting or inside its lowercased name, is up, and owns an
IPv4 address that is non-empty, not `127.*`, not `169.254.*`, and not
`0.0.0.0`; moreover an interface matching a skip pattern is excluded
regardless of its up state or addresses. -/
theorem has_wired_iff (l : List NetIface) :
    (has_wired_ethernet_connection (Except.ok l) = true ↔
      ∃ i ∈ l,
        (∀ pat ∈ SKIP_INTERFACES, strIn pat (lowerStr i.name) = false) ∧
        (∃ pat ∈ ETHERNET_PATTERNS,
          strStarts (lowerStr i.name) pat = true ∨ strIn pat (lowerStr i.name) = true) ∧
        i.isup = true ∧
        (∃ a ∈ i.addrs, a.family = 2 ∧ a.address ≠ "" ∧
          strStarts a.address "127." = false ∧
          strStarts a.address "169.254." = false ∧
          a.address ≠ "0.0.0.0")) ∧
    (∀ i : NetIface, should_skip_interface i.name = true →
      has_wired_ethernet_connection (Except.ok [i]) = false) := by
  constructor
  · simp [has_wired_ethernet_connection, should_skip_interface, is_ethernet_interface,
      interface_has_valid_connection, valid_ipv4_addr, List.any_eq_true,
      Bool.and_eq_true, Bool.not_eq_true', and_assoc]
  · intro i h
    simp [has_wired_ethernet_connection, h]

/-- C1 witness: `wlan0`, although up with a routable address, matches the
`wlan` skip pattern and is excluded. -/
theorem has_wired_iff_witness :
    should_skip_interface "wlan0" = true ∧
    has_wired_ethernet_connection
      (Except.ok [{ name := "wlan0", isup := true,
                    addrs := [{ family := 2, address := "192.168.1.5" }] }]) = false :=
  ⟨by decide, (has_wired_iff []).2 _ (by decide)⟩

/-- C5: `is_on_ac_power` fails open — a raising battery query yields true,
an absent battery yields true, and a present battery yields its
`power_plugged` flag. -/
theorem ac_power_fail_open :
    (∀ e : Unit, is_on_ac_power (Except.error e) = true) ∧
    is_on_ac_power (Except.ok none) = true ∧
    (∀ b : Battery, is_on_ac_power (Except.ok (some b)) = b.power_plugged) :=
  ⟨fun _ => rfl, rfl, fun _ => rfl⟩

/-- C6: `has_wired_ethernet_connection` fails closed — a raising
enumeration yields false, and so does any enumeration in which no
interface passes the skip filter, the ethernet-name filter, and the
valid-connection test together. -/
theorem ethernet_fail_closed :
    (∀ e : Unit, has_wired_ethernet_connection (Except.error e) = false) ∧
    (∀ l : List NetIface,
      (∀ i ∈ l,
        (!should_skip_interface i.name &&
          (is_ethernet_interface i.name && interface_has_valid_connection i)) = false) →
      has_wired_ethernet_connection (Except.ok l) = false) := by
  refine ⟨fun _ => rfl, fun l h => ?_⟩
  simp only [has_wired_ethernet_connection, List.any_eq_false]
  intro i hi
  simpa using h i hi

/-- C6 witness: enumeration listing only a loopback interface (even an up
one with an address) yields false. -/
theorem ethernet_fail_closed_witness :
    has_wired_ethernet_connection
      (Except.ok [{ name := "lo", isup := true,
                    addrs := [{ family := 2, address := "127.0.0.1" }] }]) = false :=
  ethernet_fail_closed.2 _ (by decide)

/-- C2: on one tick with fixed condition values, all three conditions true
gives exactly one key-simulation call and the timestamped press line; any
false condition gives zero calls and the line naming the first unmet
condition in the order work-hours, power, ethernet. -/
theorem tick_spec (c : ConditionSnapshot) (t : String) :
    (all_conditions_met c = true →
      keep_alive_tick c t =
        (1, ["Keep-alive: Scrolllock key pressed at " ++ t])) ∧
    (c.work_hours = false →
      keep_alive_tick c t =
        (0, ["Keep-alive: Outside work hours (8:00-17:00), skipping at " ++ t])) ∧
    (c.work_hours = true → c.ac_power = false →
      keep_alive_tick c t =
        (0, ["Keep-alive: Running on battery power, skipping at " ++ t])) ∧
    (c.work_hours = true → c.ac_power = true → c.ethernet = false →
      keep_alive_tick c t =
        (0, ["Keep-alive: No wired ethernet connection, skipping at " ++ t])) := by
  obtain ⟨w, p, e⟩ := c
  cases w <;> cases p <;> cases e <;>
    refine ⟨?_, ?_, ?_, ?_⟩ <;> intros <;>
      first
        | rfl
        | simp_all [all_conditions_met]

/-- C2 witness: with all conditions true at 12:00:00, one press happens and
the press line is printed. -/
theorem tick_spec_witness :
    keep_alive_tick ⟨true, true, true⟩ "12:00:00" =
      (1, ["Keep-alive: Scrolllock key pressed at 12:00:00"]) :=
  (tick_spec ⟨true, true, true⟩ "12:00:00").1 rfl

/-- C3: from any state satisfying the loop invariant, `start` and `stop`
preserve it, `start` leaves the controller Running, `start` twice in a row
leaves exactly one loop scheduled and the state Running, and `stop` on a
stopped controller is the identity. -/
theorem start_stop_state_machine (c c2 : ConditionSnapshot) (s : AppState)
    (h : loopInvariant s) :
    loopInvariant (start_keep_alive c s) ∧
    loopInvariant (stop_keep_alive c s) ∧
    (start_keep_alive c s).running = true ∧
    (start_keep_alive c2 (start_keep_alive c s)).loops = 1 ∧
    (start_keep_alive c2 (start_keep_alive c s)).running = true ∧
    (s.running = false → stop_keep_alive c s = s) := by
  obtain ⟨hiff, hle⟩ := h
  by_cases hr : s.running = true
  · have hs : start_keep_alive c s = s := by simp [start_keep_alive, hr]
    have hs2 : start_keep_alive c2 (start_keep_alive c s) = s := by
      rw [hs]; simp [start_keep_alive, hr]
    refine ⟨?_, ?_, ?_, ?_, ?_, ?_⟩
    · rw [hs]; exact ⟨hiff, hle⟩
    · simp only [stop_keep_alive, hr, if_true]
      constructor
      · rw [update_icon_running, update_icon_loops]; simp
      · rw [update_icon_loops]; exact Nat.zero_le 1
    · rw [hs]; exact hr
    · rw [hs2]; exact hiff.mp hr
    · rw [hs2]; exact hr
    · intro h'; rw [hr] at h'; cases h'
  · have hr' : s.running = false := by simpa using hr
    have hl0 : s.loops = 0 := by
      by_cases hl1 : s.loops = 1
      · exact absurd (hiff.mpr hl1) (by simp [hr'])
      · omega
    have hs : start_keep_alive c s =
        update_icon c { s with running := true, loops := s.loops + 1 } := by
      simp [start_keep_alive, hr']
    have hrun : (start_keep_alive c s).running = true := by
      rw [hs, update_icon_running]
    have hlp : (start_keep_alive c s).loops = 1 := by
      rw [hs, update_icon_loops]; simp [hl0]
    have hs2 : start_keep_alive c2 (start_keep_alive c s) = start_keep_alive c s :=
      start_of_running c2 _ hrun
    have hstop : stop_keep_alive c s = s := by simp [stop_keep_alive, hr']
    refine ⟨⟨?_, ?_⟩, ?_, hrun, ?_, ?_, ?_⟩
    · rw [hrun, hlp]; simp
    · rw [hlp]
    · rw [hstop]; exact ⟨hiff, hle⟩
    · rw [hs2, hlp]
    · rw [hs2, hrun]
    · intro _; exact hstop

/-- C3 witness: from the initial state (Stopped, no loop), two consecutive
`start` calls leave exactly one loop scheduled and the state Running. -/
theorem start_stop_state_machine_witness :
    (start_keep_alive ⟨true, true, true⟩
      (start_keep_alive ⟨true, true, true⟩ initState)).loops = 1 ∧
    (start_keep_alive ⟨true, true, true⟩
      (start_keep_alive ⟨true, true, true⟩ initState)).running = true :=
  ⟨(start_stop_state_machine ⟨true, true, true⟩ ⟨true, true, true⟩ initState
      (by decide)).2.2.2.1,
   (start_stop_state_machine ⟨true, true, true⟩ ⟨true, true, true⟩ initState
      (by decide)).2.2.2.2.1⟩

/-- C7: when Stopped the status is "stopped"; when Running with all
conditions met the status is "active"; when Running with an unmet condition
the status is "paused" and the title carries the full failed-condition
list, which names every failed condition (not only the first) in the order
work-hours, power, ethernet. -/
theorem icon_status_spec (c : ConditionSnapshot) :
    get_icon_status false c = ("stopped", "Stopped") ∧
    (all_conditions_met c = true →
      get_icon_status true c = ("active", "Running (Active)")) ∧
    (all_conditions_met c = false →
      (get_icon_status true c).1 = "paused" ∧
      (get_icon_status true c).2 =
        "Paused (" ++ String.intercalate ", " (get_failed_conditions c) ++ ")" ∧
      get_failed_conditions c ≠ [] ∧
      List.Sublist (get_failed_conditions c)
        ["Outside Work Hours", "On Battery", "No Ethernet"] ∧
      ("Outside Work Hours" ∈ get_failed_conditions c ↔ c.work_hours = false) ∧
      ("On Battery" ∈ get_failed_conditions c ↔ c.ac_power = false) ∧
      ("No Ethernet" ∈ get_failed_conditions c ↔ c.ethernet = false)) := by
  obtain ⟨w, p, e⟩ := c
  cases w <;> cases p <;> cases e <;>
    refine ⟨rfl, ?_, ?_⟩ <;> intro h <;>
      first
        | rfl
        | decide
        | simp_all [all_conditions_met]

/-- C7 witness: Running outside work hours (other conditions met) shows
"paused" and the failed list names exactly the work-hours condition. -/
theorem icon_status_spec_witness :
    (get_icon_status true ⟨false, true, true⟩).1 = "paused" ∧
    ("Outside Work Hours" ∈ get_failed_conditions ⟨false, true, true⟩ ↔
      (false : Bool) = false) :=
  ⟨((icon_status_spec ⟨false, true, true⟩).2.2 rfl).1,
   ((icon_status_spec ⟨false, true, true⟩).2.2 rfl).2.2.2.2.1⟩

/-- C9: the failed-condition list is empty iff all conditions are met, a
string belongs to it exactly when it names a condition that is false, and
it is always a sublist of the full in-order list, so entries appear in the
order work-hours, power, ethernet. -/
theorem failed_conditions_algebra (c : ConditionSnapshot) :
    (get_failed_conditions c = [] ↔ all_conditions_met c = true) ∧
    (∀ s : String, s ∈ get_failed_conditions c ↔
      ((s = "Outside Work Hours" ∧ c.work_hours = false) ∨
       (s = "On Battery" ∧ c.ac_power = false) ∨
       (s = "No Ethernet" ∧ c.ethernet = false))) ∧
    List.Sublist (get_failed_conditions c)
      ["Outside Work Hours", "On Battery", "No Ethernet"] := by
  obtain ⟨w, p, e⟩ := c
  cases w <;> cases p <;> cases e <;>
    refine ⟨by decide, ?_, by decide⟩ <;> intro s <;>
      simp [get_failed_conditions]

/-- C9 witness: with only ethernet down, the failed list is exactly
["No Ethernet"], which is nonempty exactly as `all_conditions_met` is
false. -/
theorem failed_conditions_algebra_witness :
    (get_failed_conditions ⟨true, true, false⟩ = [] ↔
      all_conditions_met ⟨true, true, false⟩ = true) ∧
    ("No Ethernet" ∈ get_failed_conditions ⟨true, true, false⟩ ↔
      ((("No Ethernet" : String) = "Outside Work Hours" ∧ (true : Bool) = false) ∨
       (("No Ethernet" : String) = "On Battery" ∧ (true : Bool) = false) ∨
       (("No Ethernet" : String) = "No Ethernet" ∧ (false : Bool) = false))) :=
  ⟨(failed_conditions_algebra ⟨true, true, false⟩).1,
   (failed_conditions_algebra ⟨true, true, false⟩).2.1 "No Ethernet"⟩

/-- C10: with no tray icon created, `update_icon` is the identity (no
action, no error), and `start`/`stop` still set the running flag
correctly. -/
theorem update_icon_without_icon (c : ConditionSnapshot) (s : AppState)
    (h : s.icon = none) :
    update_icon c s = s ∧
    (start_keep_alive c s).running = true ∧
    (stop_keep_alive c s).running = false := by
  have h1 : update_icon c s = s := by
    unfold update_icon; rw [h]
  refine ⟨h1, ?_, ?_⟩
  · by_cases hr : s.running = true
    · simp [start_keep_alive, hr]
    · have hr' : s.running = false := by simpa using hr
      simp [start_keep_alive, hr', update_icon_running]
  · by_cases hr : s.running = true
    · simp [stop_keep_alive, hr, update_icon_running]
    · have hr' : s.running = false := by simpa using hr
      simp [stop_keep_alive, hr']

/-- C10 witness: before `run()` creates the icon (the initial state),
`update_icon` changes nothing and `start` still sets Running. -/
theorem update_icon_without_icon_witness :
    update_icon ⟨true, true, true⟩ initState = initState ∧
    (start_keep_alive ⟨true, true, true⟩ initState).running = true :=
  ⟨(update_icon_without_icon ⟨true, true, true⟩ initState rfl).1,
   (update_icon_without_icon ⟨true, true, true⟩ initState rfl).2.1⟩

/-- C8 counterexample: the lines printed by `start_keep_alive` and
`stop_keep_alive` go to standard output but do not carry the
"Keep-alive:" prefix (they read "Keep-alive started"/"Keep-alive stopped",
with no colon and no timestamp). -/
theorem log_line_prefix_counterexample :
    strStarts start_log_line "Keep-alive:" = false ∧
    strStarts stop_log_line "Keep-alive:" = false := by decide

/-- C8 amended: every line printed by a tick of the keep-alive loop (press
lines and skip-reason lines) starts with "Keep-alive:" and ends with the
tick's HH:MM:SS timestamp. -/
theorem loop_log_lines_prefixed (c : ConditionSnapshot) (t : String) :
    ∀ line ∈ (keep_alive_tick c t).2,
      ∃ pre : String, line = pre ++ t ∧ strStarts pre "Keep-alive:" = true := by
  obtain ⟨w, p, e⟩ := c
  cases w <;> cases p <;> cases e <;> intro line hline <;>
    simp [keep_alive_tick, all_conditions_met, log_skip_reason,
      key_press_log_line] at hline <;>
    subst hline <;>
    first
      | exact ⟨"Keep-alive: Scrolllock key pressed at ", rfl, by decide⟩
      | exact ⟨"Keep-alive: Outside work hours (8:00-17:00), skipping at ",
          rfl, by decide⟩
      | exact ⟨"Keep-alive: Running on battery power, skipping at ",
          rfl, by decide⟩
      | exact ⟨"Keep-alive: No wired ethernet connection, skipping at ",
          rfl, by decide⟩

/-- C8 witness: the battery-skip line of a tick at 09:15:00 splits into a
"Keep-alive:"-prefixed head followed by the timestamp. -/
theorem loop_log_lines_prefixed_witness :
    ∃ pre : String,
      "Keep-alive: Running on battery power, skipping at 09:15:00" =
        pre ++ "09:15:00" ∧
      strStarts pre "Keep-alive:" = true :=
  loop_log_lines_prefixed ⟨true, false, true⟩ "09:15:00"
    "Keep-alive: Running on battery power, skipping at 09:15:00" (by decide)

end KeepAlive
